import Mathlib

/-!
Shallow embedding of the core of the `alx-polly` polling application:
the in-memory auth rate limiter and auth actions (`auth-actions.ts`),
the poll/vote server actions (`poll-actions.ts`, including the
rate-limited `createPoll` variant), and the vote-percentage display
helper (`PollVoteClient.tsx`).  Timestamps are milliseconds as `Int`
(JS `Date.now()`); the supabase row stores are explicit lists; the
identity provider and database outcomes that are external to this code
are passed in as parameters.
-/

namespace AlxPolly

/-! ### Auth rate limiter (`auth-actions.ts` lines 6–26) -/

/-- One entry of `rateLimitStore`: `{ count: number; last: number }`. -/
structure RLEntry where
  count : Nat
  last : Int
  deriving DecidableEq, Repr

/-- The `rateLimitStore` record is string-keyed; embedded as an association list. -/
abbrev RateStore := List (String × RLEntry)

/-- Association-list lookup, the embedding of `store[key]` reads. -/
def alookup {β : Type} : List (String × β) → String → Option β
  | [], _ => none
  | (k, v) :: rest, key => if k = key then some v else alookup rest key

/-- Association-list update, the embedding of `store[key] = v` writes. -/
def aset {β : Type} : List (String × β) → String → β → List (String × β)
  | [], key, v => [(key, v)]
  | (k, v0) :: rest, key, v =>
    if k = key then (key, v) :: rest else (k, v0) :: aset rest key v

def RATE_LIMIT_WINDOW : Int := 60 * 1000

def RATE_LIMIT_MAX : Nat := 5

def rateLimitMsg : String := "Too many requests. Please wait and try again."

/-- The rate-limit key `` `${action}:${ip}` ``. -/
def mkKey (action ip : String) : String := action ++ ":" ++ ip

/-- Embedding of `checkRateLimit(ip, action)` from `auth-actions.ts`: reads the entry for
`action:ip` (defaulting to `{count: 0, last: now}`), rolls the window over when
`now - entry.last > RATE_LIMIT_WINDOW` (resetting to count 1) and otherwise
increments, writes the entry back, and denies when the post-update count
exceeds `RATE_LIMIT_MAX`.  Returns the error (or `none`) and the new store. -/
def checkRateLimit (st : RateStore) (ip action : String) (now : Int) :
    Option String × RateStore :=
  let key := mkKey action ip
  let entry := (alookup st key).getD ⟨0, now⟩
  let entry' : RLEntry :=
    if now - entry.last > RATE_LIMIT_WINDOW then ⟨1, now⟩
    else ⟨entry.count + 1, entry.last⟩
  let st' := aset st key entry'
  (if entry'.count > RATE_LIMIT_MAX then some rateLimitMsg else none, st')

/-! ### Auth actions (`auth-actions.ts` lines 28–104) -/

/-- Embedding of `RegisterFormData`. -/
structure RegisterData where
  name : String
  email : String
  password : String
  deriving DecidableEq, Repr

def passwordPolicyMsg : String :=
  "Password must be at least 8 characters and include upper, lower, number, and special character."

def verifyEmailMsg : String :=
  "Registration successful. Please verify your email before logging in."

/-- Embedding of `/[A-Z]/.test(password)`. -/
def hasUpper (p : String) : Bool := p.data.any fun c => 'A' ≤ c && c ≤ 'Z'

/-- Embedding of `/[a-z]/.test(password)`. -/
def hasLower (p : String) : Bool := p.data.any fun c => 'a' ≤ c && c ≤ 'z'

/-- Embedding of `/[0-9]/.test(password)`. -/
def hasNumber (p : String) : Bool := p.data.any fun c => '0' ≤ c && c ≤ '9'

/-- Embedding of `/[^A-Za-z0-9]/.test(password)`. -/
def hasSpecial (p : String) : Bool :=
  p.data.any fun c =>
    !(('A' ≤ c && c ≤ 'Z') || ('a' ≤ c && c ≤ 'z') || ('0' ≤ c && c ≤ '9'))

/-- The rejection condition of `register`'s password-strength block:
`password.length < minLength || !hasUpper || !hasLower || !hasNumber || !hasSpecial`. -/
def passwordRejected (p : String) : Bool :=
  decide (p.length < 8) || !hasUpper p || !hasLower p || !hasNumber p || !hasSpecial p

/-- Result of `register`, together with the rate-limit store it leaves behind
and whether the identity provider's `signUp` was reached (account creation
attempted). -/
structure RegisterResult where
  error : Option String
  emailVerificationRequired : Bool
  store : RateStore
  signUpCalled : Bool

/-- Embedding of `register(data)` from `auth-actions.ts`: rate-limit check first (the random
per-call "ip" is the `ip` parameter here), then password-strength validation,
then the provider `signUp` whose outcome is given by `signUpError` /
`emailConfirmedAt`. -/
def register (st : RateStore) (ip : String) (now : Int) (data : RegisterData)
    (signUpError : Option String) (emailConfirmedAt : Bool) : RegisterResult :=
  let res := checkRateLimit st ip "register" now
  match res.1 with
  | some e => ⟨some e, false, res.2, false⟩
  | none =>
    if passwordRejected data.password then ⟨some passwordPolicyMsg, false, res.2, false⟩
    else
      match signUpError with
      | some e => ⟨some e, false, res.2, true⟩
      | none =>
        if !emailConfirmedAt then ⟨some verifyEmailMsg, true, res.2, true⟩
        else ⟨none, false, res.2, true⟩

/-- One `login` invocation: its random "ip", its time, and the outcome the
identity provider's `signInWithPassword` would give it. -/
structure LoginCall where
  ip : String
  now : Int
  authError : Option String
  deriving Repr

/-- Embedding of `login(data)` from `auth-actions.ts`: rate-limit check, then delegate to
the identity provider, surfacing its error verbatim. -/
def login (st : RateStore) (c : LoginCall) : Option String × RateStore :=
  match checkRateLimit st c.ip "login" c.now with
  | (some e, st') => (some e, st')
  | (none, st') => (c.authError, st')

/-- A sequence of `login` invocations threading the shared `rateLimitStore`. -/
def runLogins : RateStore → List LoginCall → List (Option String) × RateStore
  | st, [] => ([], st)
  | st, c :: rest =>
    let p := login st c
    let q := runLogins p.2 rest
    (p.1 :: q.1, q.2)

/-- One `register` invocation: its random "ip", time, form data, and provider outcome. -/
structure RegisterCall where
  ip : String
  now : Int
  data : RegisterData
  signUpError : Option String
  emailConfirmedAt : Bool

/-- The outcome of `register` past the rate-limit check: validation then
provider delegation.  Used to state that the limiter contributes nothing. -/
def registerBody (c : RegisterCall) : Option String :=
  if passwordRejected c.data.password then some passwordPolicyMsg
  else
    match c.signUpError with
    | some e => some e
    | none => if !c.emailConfirmedAt then some verifyEmailMsg else none

/-- A sequence of `register` invocations threading the shared `rateLimitStore`. -/
def runRegisters : RateStore → List RegisterCall → List (Option String) × RateStore
  | st, [] => ([], st)
  | st, c :: rest =>
    let r := register st c.ip c.now c.data c.signUpError c.emailConfirmedAt
    let q := runRegisters r.store rest
    (r.error :: q.1, q.2)

/-- A sequence of bare `checkRateLimit` invocations on one action, threading
the shared store; each call carries its "ip" and its time. -/
def runRateChecks (action : String) : RateStore → List (String × Int) → List (Option String) × RateStore
  | st, [] => ([], st)
  | st, (ip, now) :: rest =>
    let p := checkRateLimit st ip action now
    let q := runRateChecks action p.2 rest
    (p.1 :: q.1, q.2)

/-! ### Poll actions (`poll-actions.ts`) -/

/-- A row of the `polls` table as this code writes and reads it. -/
structure PollRow where
  id : String
  user_id : String
  question : String
  options : List String
  created_at : Int
  deriving DecidableEq, Repr

/-- A row of the `votes` table as `submitVote` inserts it:
`{ poll_id, user_id (null for anonymous), option_index }`. -/
structure VoteRow where
  poll_id : String
  user_id : Option String
  option_index : Int
  deriving DecidableEq, Repr

def pollValidationMsg : String := "Please provide a question and at least two options."

def createPollLoginMsg : String := "You must be logged in to create a poll."

def updatePollLoginMsg : String := "You must be logged in to update a poll."

def notAuthenticatedMsg : String := "Not authenticated"

/-- Supabase `.single()` failure message boundary (0 or several rows matched). -/
def singleRowErrMsg : String := "JSON object requested, multiple (or no) rows returned"

/-- Embedding of `formData.getAll("options").filter(Boolean)`: drops exactly the empty strings. -/
def filterOptions (raw : List String) : List String := raw.filter fun s => !(s == "")

/-- The shared validation guard of `createPoll`/`updatePoll`:
`!question || options.length < 2` (with `options` already filtered). -/
def pollInputInvalid (question : String) (raw : List String) : Prop :=
  question = "" ∨ (filterOptions raw).length < 2

instance (q : String) (raw : List String) : Decidable (pollInputInvalid q raw) := by
  unfold pollInputInvalid
  infer_instance

/-- Embedding of `createPoll(formData)` from `poll-actions.ts`: validate the extracted
question/options, require a user, then insert
`{user_id, question, options}` (row id and `created_at` are database-assigned,
passed in as `newId`/`now`).  Returns the new table and the `error` field. -/
def createPoll (db : List PollRow) (auth : Option String) (question : String)
    (optionsRaw : List String) (newId : String) (now : Int) :
    List PollRow × Option String :=
  let options := filterOptions optionsRaw
  if pollInputInvalid question optionsRaw then (db, some pollValidationMsg)
  else
    match auth with
    | none => (db, some createPollLoginMsg)
    | some uid => (db ++ [⟨newId, uid, question, options, now⟩], none)

/-- Embedding of `getUserPolls()`: require a user, then select rows with `user_id = uid`
ordered by `created_at` descending. -/
def getUserPolls (db : List PollRow) (auth : Option String) :
    List PollRow × Option String :=
  match auth with
  | none => ([], some notAuthenticatedMsg)
  | some uid =>
    (((db.filter fun r => r.user_id == uid).mergeSort
        fun a b => b.created_at ≤ a.created_at), none)

/-- Embedding of `getPollById(id)`: require a user, then select the single row with the
given id owned by that user; `.single()` errors unless exactly one row matches. -/
def getPollById (db : List PollRow) (auth : Option String) (pollId : String) :
    Option PollRow × Option String :=
  match auth with
  | none => (none, some notAuthenticatedMsg)
  | some uid =>
    match db.filter fun r => r.id == pollId && r.user_id == uid with
    | [r] => (some r, none)
    | _ => (none, some singleRowErrMsg)

/-- Embedding of `submitVote(pollId, optionIndex)`: resolves the (optional) user and inserts
the vote row unconditionally — there is no bounds check on `optionIndex` and no
login requirement (that check is commented out in the source). -/
def submitVote (votes : List VoteRow) (auth : Option String) (pollId : String)
    (optionIndex : Int) : List VoteRow × Option String :=
  (votes ++ [⟨pollId, auth, optionIndex⟩], none)

/-- Embedding of `deletePoll(id)`: require a user, then delete the rows matching
`id = pollId AND user_id = uid`. -/
def deletePoll (db : List PollRow) (auth : Option String) (pollId : String) :
    List PollRow × Option String :=
  match auth with
  | none => (db, some notAuthenticatedMsg)
  | some uid => (db.filter fun r => !(r.id == pollId && r.user_id == uid), none)

/-- Embedding of `updatePoll(pollId, formData)`: validate the extracted question/options,
require a user, then update `{question, options}` on the rows matching
`id = pollId AND user_id = uid`. -/
def updatePoll (db : List PollRow) (auth : Option String) (pollId : String)
    (question : String) (optionsRaw : List String) :
    List PollRow × Option String :=
  let options := filterOptions optionsRaw
  if pollInputInvalid question optionsRaw then (db, some pollValidationMsg)
  else
    match auth with
    | none => (db, some updatePollLoginMsg)
    | some uid =>
      (db.map fun r =>
        if r.id = pollId ∧ r.user_id = uid then
          { r with question := question, options := options }
        else r, none)

/-! ### Rate-limited `createPoll` variant (`src/unnamed/part_002`) -/

def POLL_RATE_LIMIT_WINDOW_MS : Int := 60 * 1000

def POLL_RATE_LIMIT_MAX : Nat := 3

def pollRateLimitMsg : String :=
  "Rate limit exceeded. You can create up to 3 polls per minute."

/-- Embedding of `pollRateLimitMap`: per-user list of creation timestamps. -/
abbrev PollRateMap := List (String × List Int)

/-- Embedding of `createPoll(formData)` from the rate-limited variant: validate, require a
user, drop the user's recorded timestamps outside the window
(`now - ts < POLL_RATE_LIMIT_WINDOW_MS` keeps), deny when 3 or more remain —
WITHOUT writing anything back — and otherwise record `now` and insert. -/
def createPollRL (db : List PollRow) (rl : PollRateMap) (auth : Option String)
    (now : Int) (question : String) (optionsRaw : List String) (newId : String) :
    List PollRow × PollRateMap × Option String :=
  let options := filterOptions optionsRaw
  if pollInputInvalid question optionsRaw then (db, rl, some pollValidationMsg)
  else
    match auth with
    | none => (db, rl, some createPollLoginMsg)
    | some uid =>
      let timestamps := (alookup rl uid).getD []
      let ts' := timestamps.filter fun ts => now - ts < POLL_RATE_LIMIT_WINDOW_MS
      if ts'.length ≥ POLL_RATE_LIMIT_MAX then (db, rl, some pollRateLimitMsg)
      else (db ++ [⟨newId, uid, question, options, now⟩], aset rl uid (ts' ++ [now]), none)

/-! ### Vote percentage display (`PollVoteClient.tsx` lines 19–26) -/

/-- Embedding of `localOptions.reduce((sum, option) => sum + option.votes, 0)`;
options are abstracted to their vote counts. -/
def totalVotes (opts : List Nat) : Nat := opts.foldl (fun sum o => sum + o) 0

/-- JS `Math.round`: round half toward positive infinity, `⌊x + 1/2⌋`. -/
def jsRound (q : ℚ) : ℤ := ⌊q + 1 / 2⌋

/-- Embedding of `getPercentage(votes)`: `0` when the total is `0`, otherwise
`Math.round((votes / totalVotes) * 100)`. -/
def getPercentage (votes : Nat) (opts : List Nat) : ℤ :=
  if totalVotes opts = 0 then 0
  else jsRound ((votes : ℚ) / (totalVotes opts : ℚ) * 100)

/-! ### Association-list and key lemmas -/

theorem alookup_aset_self {β : Type} (st : List (String × β)) (k : String) (v : β) :
    alookup (aset st k v) k = some v := by
  induction st with
  | nil => simp [aset, alookup]
  | cons kv rest ih =>
    obtain ⟨k0, v0⟩ := kv
    by_cases h : k0 = k
    · simp [aset, alookup, h]
    · simp [aset, alookup, h, ih]

theorem alookup_aset_ne {β : Type} (st : List (String × β)) (k k' : String) (v : β)
    (h : k' ≠ k) : alookup (aset st k v) k' = alookup st k' := by
  have hne : ¬ k = k' := fun hh => h hh.symm
  induction st with
  | nil => simp [aset, alookup, hne]
  | cons kv rest ih =>
    obtain ⟨k0, v0⟩ := kv
    by_cases h0 : k0 = k
    · subst h0
      simp [aset, alookup, hne]
    · simp [aset, alookup, h0, ih]

theorem string_append_left_cancel (s t u : String) (h : s ++ t = s ++ u) : t = u := by
  obtain ⟨ls⟩ := s
  obtain ⟨lt⟩ := t
  obtain ⟨lu⟩ := u
  have hd : ls ++ lt = ls ++ lu := congrArg String.data h
  have := List.append_cancel_left hd
  simp [this]

theorem mkKey_inj (action ip ip' : String) (h : mkKey action ip = mkKey action ip') :
    ip = ip' :=
  string_append_left_cancel (action ++ ":") ip ip' h

/-! ### `checkRateLimit` step lemmas -/

theorem checkRateLimit_fresh (st : RateStore) (ip action : String) (now : Int)
    (h : alookup st (mkKey action ip) = none) :
    checkRateLimit st ip action now = (none, aset st (mkKey action ip) ⟨1, now⟩) := by
  simp [checkRateLimit, h, RATE_LIMIT_WINDOW, RATE_LIMIT_MAX]

theorem checkRateLimit_incr (st : RateStore) (ip action : String) (now : Int)
    (c : Nat) (w : Int) (h : alookup st (mkKey action ip) = some ⟨c, w⟩)
    (hw : now - w ≤ RATE_LIMIT_WINDOW) :
    checkRateLimit st ip action now =
      (if c + 1 > RATE_LIMIT_MAX then some rateLimitMsg else none,
        aset st (mkKey action ip) ⟨c + 1, w⟩) := by
  have hw' : ¬ now - w > RATE_LIMIT_WINDOW := by omega
  simp [checkRateLimit, h, hw']

theorem checkRateLimit_rollover (st : RateStore) (ip action : String) (now : Int)
    (c : Nat) (w : Int) (h : alookup st (mkKey action ip) = some ⟨c, w⟩)
    (hw : now - w > RATE_LIMIT_WINDOW) :
    checkRateLimit st ip action now = (none, aset st (mkKey action ip) ⟨1, now⟩) := by
  simp [checkRateLimit, h, hw, RATE_LIMIT_MAX]

/-! ### Claim C5 -/

/-- C5: for a fixed rate-limit key (same ip and action, max 5 / window 60s),
six calls whose times all fall within 60s of the window start `t1` produce
five allowed results and a denial on the sixth, with the tipping attempt
itself counted (the stored entry reaches count 6 with window start still
`t1`); a further call more than 60s after the window start is allowed and
resets the entry to count 1 with window start at that call's time. -/
theorem c5_rate_limit_six_then_reset
    (st : RateStore) (ip action : String) (t1 t2 t3 t4 t5 t6 t7 : Int)
    (hfresh : alookup st (mkKey action ip) = none)
    (h2 : t2 - t1 ≤ RATE_LIMIT_WINDOW) (h3 : t3 - t1 ≤ RATE_LIMIT_WINDOW)
    (h4 : t4 - t1 ≤ RATE_LIMIT_WINDOW) (h5 : t5 - t1 ≤ RATE_LIMIT_WINDOW)
    (h6 : t6 - t1 ≤ RATE_LIMIT_WINDOW) (h7 : t7 - t1 > RATE_LIMIT_WINDOW) :
    (runRateChecks action st
        [(ip, t1), (ip, t2), (ip, t3), (ip, t4), (ip, t5), (ip, t6), (ip, t7)]).1 =
      [none, none, none, none, none, some rateLimitMsg, none] ∧
    alookup (runRateChecks action st
        [(ip, t1), (ip, t2), (ip, t3), (ip, t4), (ip, t5), (ip, t6)]).2
      (mkKey action ip) = some ⟨6, t1⟩ ∧
    alookup (runRateChecks action st
        [(ip, t1), (ip, t2), (ip, t3), (ip, t4), (ip, t5), (ip, t6), (ip, t7)]).2
      (mkKey action ip) = some ⟨1, t7⟩ := by
  have e1 := checkRateLimit_fresh st ip action t1 hfresh
  set st1 := aset st (mkKey action ip) (⟨1, t1⟩ : RLEntry) with hst1
  have l1 : alookup st1 (mkKey action ip) = some ⟨1, t1⟩ := alookup_aset_self st _ _
  have e2 := checkRateLimit_incr st1 ip action t2 1 t1 l1 h2
  norm_num [RATE_LIMIT_MAX] at e2
  set st2 := aset st1 (mkKey action ip) (⟨2, t1⟩ : RLEntry) with hst2
  have l2 : alookup st2 (mkKey action ip) = some ⟨2, t1⟩ := alookup_aset_self st1 _ _
  have e3 := checkRateLimit_incr st2 ip action t3 2 t1 l2 h3
  norm_num [RATE_LIMIT_MAX] at e3
  set st3 := aset st2 (mkKey action ip) (⟨3, t1⟩ : RLEntry) with hst3
  have l3 : alookup st3 (mkKey action ip) = some ⟨3, t1⟩ := alookup_aset_self st2 _ _
  have e4 := checkRateLimit_incr st3 ip action t4 3 t1 l3 h4
  norm_num [RATE_LIMIT_MAX] at e4
  set st4 := aset st3 (mkKey action ip) (⟨4, t1⟩ : RLEntry) with hst4
  have l4 : alookup st4 (mkKey action ip) = some ⟨4, t1⟩ := alookup_aset_self st3 _ _
  have e5 := checkRateLimit_incr st4 ip action t5 4 t1 l4 h5
  norm_num [RATE_LIMIT_MAX] at e5
  set st5 := aset st4 (mkKey action ip) (⟨5, t1⟩ : RLEntry) with hst5
  have l5 : alookup st5 (mkKey action ip) = some ⟨5, t1⟩ := alookup_aset_self st4 _ _
  have e6 := checkRateLimit_incr st5 ip action t6 5 t1 l5 h6
  norm_num [RATE_LIMIT_MAX] at e6
  set st6 := aset st5 (mkKey action ip) (⟨6, t1⟩ : RLEntry) with hst6
  have l6 : alookup st6 (mkKey action ip) = some ⟨6, t1⟩ := alookup_aset_self st5 _ _
  have e7 := checkRateLimit_rollover st6 ip action t7 6 t1 l6 h7
  set st7 := aset st6 (mkKey action ip) (⟨1, t7⟩ : RLEntry) with hst7
  have l7 : alookup st7 (mkKey action ip) = some ⟨1, t7⟩ := alookup_aset_self st6 _ _
  refine ⟨?_, ?_, ?_⟩ <;>
    simp [runRateChecks, e1, e2, e3, e4, e5, e6, e7, l6, l7]

/-- Witness for C5 at a concrete key and concrete call times. -/
theorem c5_rate_limit_six_then_reset_witness :
    (runRateChecks "login" []
        [("k", 0), ("k", 10), ("k", 20), ("k", 30), ("k", 40), ("k", 50), ("k", 60001)]).1 =
      [none, none, none, none, none, some rateLimitMsg, none] ∧
    alookup (runRateChecks "login" []
        [("k", 0), ("k", 10), ("k", 20), ("k", 30), ("k", 40), ("k", 50)]).2
      (mkKey "login" "k") = some ⟨6, 0⟩ ∧
    alookup (runRateChecks "login" []
        [("k", 0), ("k", 10), ("k", 20), ("k", 30), ("k", 40), ("k", 50), ("k", 60001)]).2
      (mkKey "login" "k") = some ⟨1, 60001⟩ :=
  c5_rate_limit_six_then_reset [] "k" "login" 0 10 20 30 40 50 60001 rfl
    (by decide) (by decide) (by decide) (by decide) (by decide) (by decide)

/-! ### `register` unfolding lemmas -/

theorem register_store (st : RateStore) (ip : String) (now : Int) (data : RegisterData)
    (e : Option String) (conf : Bool) :
    (register st ip now data e conf).store = (checkRateLimit st ip "register" now).2 := by
  rcases hc : checkRateLimit st ip "register" now with ⟨r, st'⟩
  cases r <;>
    by_cases hp : passwordRejected data.password <;>
      cases e <;> cases conf <;> simp [register, hc, hp]

theorem register_rate_deny (st : RateStore) (ip : String) (now : Int)
    (data : RegisterData) (e : Option String) (conf : Bool) (msg : String)
    (h : (checkRateLimit st ip "register" now).1 = some msg) :
    (register st ip now data e conf).error = some msg ∧
    (register st ip now data e conf).signUpCalled = false := by
  rcases hc : checkRateLimit st ip "register" now with ⟨r, st'⟩
  rw [hc] at h
  simp only at h
  subst h
  simp [register, hc]

theorem register_rate_pass (st : RateStore) (ip : String) (now : Int)
    (data : RegisterData) (e : Option String) (conf : Bool)
    (h : (checkRateLimit st ip "register" now).1 = none) :
    (register st ip now data e conf).error = registerBody ⟨ip, now, data, e, conf⟩ ∧
    (register st ip now data e conf).signUpCalled = !passwordRejected data.password := by
  rcases hc : checkRateLimit st ip "register" now with ⟨r, st'⟩
  rw [hc] at h
  simp only at h
  subst h
  by_cases hp : passwordRejected data.password <;>
    cases e <;> cases conf <;> simp [register, registerBody, hc, hp]

/-! ### Fresh-key run lemmas and claim C3 -/

theorem runLogins_fresh (ls : List LoginCall) : ∀ st : RateStore,
    (∀ c ∈ ls, alookup st (mkKey "login" c.ip) = none) →
    (ls.map LoginCall.ip).Pairwise (· ≠ ·) →
    (runLogins st ls).1 = ls.map LoginCall.authError := by
  induction ls with
  | nil => intro st _ _; rfl
  | cons c rest ih =>
    intro st hfresh hpair
    simp only [List.map_cons, List.pairwise_cons] at hpair
    have hc := hfresh c (List.mem_cons_self c rest)
    have hl : login st c = (c.authError, aset st (mkKey "login" c.ip) ⟨1, c.now⟩) := by
      unfold login
      rw [checkRateLimit_fresh st c.ip "login" c.now hc]
    simp only [runLogins, hl, List.map_cons]
    congr 1
    apply ih
    · intro d hd
      rw [alookup_aset_ne]
      · exact hfresh d (List.mem_cons_of_mem _ hd)
      · intro hkey
        exact hpair.1 d.ip (List.mem_map_of_mem _ hd) (mkKey_inj _ _ _ hkey).symm
    · exact hpair.2

theorem runRegisters_fresh (rs : List RegisterCall) : ∀ st : RateStore,
    (∀ c ∈ rs, alookup st (mkKey "register" c.ip) = none) →
    (rs.map RegisterCall.ip).Pairwise (· ≠ ·) →
    (runRegisters st rs).1 = rs.map registerBody := by
  induction rs with
  | nil => intro st _ _; rfl
  | cons c rest ih =>
    intro st hfresh hpair
    simp only [List.map_cons, List.pairwise_cons] at hpair
    have hc := hfresh c (List.mem_cons_self c rest)
    have hpass : (checkRateLimit st c.ip "register" c.now).1 = none := by
      rw [checkRateLimit_fresh st c.ip "register" c.now hc]
    have herr :=
      (register_rate_pass st c.ip c.now c.data c.signUpError c.emailConfirmedAt hpass).1
    have hstore :=
      register_store st c.ip c.now c.data c.signUpError c.emailConfirmedAt
    rw [checkRateLimit_fresh st c.ip "register" c.now hc] at hstore
    simp only [runRegisters, List.map_cons, herr, hstore]
    congr 1
    apply ih
    · intro d hd
      rw [alookup_aset_ne]
      · exact hfresh d (List.mem_cons_of_mem _ hd)
      · intro hkey
        exact hpair.1 d.ip (List.mem_map_of_mem _ hd) (mkKey_inj _ _ _ hkey).symm
    · exact hpair.2

/-- C3: because `login`/`register` derive the rate-limit key from a fresh
random value per call, whenever the generated values are pairwise distinct
the rate-limit check denies none of the calls: every `login` returns exactly
the identity provider's outcome and every `register` returns exactly its
post-rate-limit body outcome, independently of how many prior calls fell in
the window — the limiter is a no-op for these actions. -/
theorem c3_random_key_limiter_no_op (ls : List LoginCall) (rs : List RegisterCall)
    (hl : (ls.map LoginCall.ip).Pairwise (· ≠ ·))
    (hr : (rs.map RegisterCall.ip).Pairwise (· ≠ ·)) :
    (runLogins [] ls).1 = ls.map LoginCall.authError ∧
    (runRegisters [] rs).1 = rs.map registerBody :=
  ⟨runLogins_fresh ls [] (fun _ _ => rfl) hl,
   runRegisters_fresh rs [] (fun _ _ => rfl) hr⟩

/-- Witness for C3: seven login attempts inside one 60-second window with
pairwise-distinct random keys are all passed through to the provider (none is
rate-limited, although a stable key would have denied the sixth and seventh),
and likewise six register attempts. -/
theorem c3_random_key_limiter_no_op_witness :
    (runLogins []
        [⟨"r1", 0, some "bad"⟩, ⟨"r2", 1, some "bad"⟩, ⟨"r3", 2, some "bad"⟩,
         ⟨"r4", 3, some "bad"⟩, ⟨"r5", 4, some "bad"⟩, ⟨"r6", 5, some "bad"⟩,
         ⟨"r7", 6, none⟩]).1 =
      [some "bad", some "bad", some "bad", some "bad", some "bad", some "bad", none] ∧
    (runRegisters []
        [⟨"s1", 0, ⟨"n", "e", "Abc@1234"⟩, none, false⟩,
         ⟨"s2", 1, ⟨"n", "e", "Abc@1234"⟩, none, false⟩,
         ⟨"s3", 2, ⟨"n", "e", "Abc@1234"⟩, none, false⟩,
         ⟨"s4", 3, ⟨"n", "e", "Abc@1234"⟩, none, false⟩,
         ⟨"s5", 4, ⟨"n", "e", "Abc@1234"⟩, none, false⟩,
         ⟨"s6", 5, ⟨"n", "e", "Abc@1234"⟩, none, false⟩]).1 =
      [some verifyEmailMsg, some verifyEmailMsg, some verifyEmailMsg,
       some verifyEmailMsg, some verifyEmailMsg, some verifyEmailMsg] := by
  have h := c3_random_key_limiter_no_op
    [⟨"r1", 0, some "bad"⟩, ⟨"r2", 1, some "bad"⟩, ⟨"r3", 2, some "bad"⟩,
     ⟨"r4", 3, some "bad"⟩, ⟨"r5", 4, some "bad"⟩, ⟨"r6", 5, some "bad"⟩,
     ⟨"r7", 6, none⟩]
    [⟨"s1", 0, ⟨"n", "e", "Abc@1234"⟩, none, false⟩,
     ⟨"s2", 1, ⟨"n", "e", "Abc@1234"⟩, none, false⟩,
     ⟨"s3", 2, ⟨"n", "e", "Abc@1234"⟩, none, false⟩,
     ⟨"s4", 3, ⟨"n", "e", "Abc@1234"⟩, none, false⟩,
     ⟨"s5", 4, ⟨"n", "e", "Abc@1234"⟩, none, false⟩,
     ⟨"s6", 5, ⟨"n", "e", "Abc@1234"⟩, none, false⟩]
    (by decide) (by decide)
  refine ⟨h.1.trans (by decide), h.2.trans (by decide)⟩

/-! ### Claim C4 -/

theorem hasSpecial_eq_not_alphanum (p : String) :
    hasSpecial p = p.data.any fun c => !c.isAlphanum := by
  unfold hasSpecial
  congr 1

/-- C4: `register`'s password validation accepts exactly the passwords of
length at least 8 containing an uppercase letter, a lowercase letter, a digit
and a non-alphanumeric character; when the validation rejects (reached, i.e.
the rate-limit key is fresh as every randomly generated one is), `register`
returns the combined policy message and never reaches the provider's
`signUp` (no account is created); when it accepts, `signUp` is reached. -/
theorem c4_password_validation (p : String) (st : RateStore) (ip : String)
    (now : Int) (data : RegisterData) (e : Option String) (conf : Bool)
    (hfresh : alookup st (mkKey "register" ip) = none) :
    (passwordRejected p = false ↔
      (8 ≤ p.length ∧ (∃ c ∈ p.data, c.isUpper) ∧ (∃ c ∈ p.data, c.isLower) ∧
        (∃ c ∈ p.data, c.isDigit) ∧ (∃ c ∈ p.data, !c.isAlphanum))) ∧
    (passwordRejected data.password = true →
      (register st ip now data e conf).error = some passwordPolicyMsg ∧
      (register st ip now data e conf).signUpCalled = false) ∧
    (passwordRejected data.password = false →
      (register st ip now data e conf).signUpCalled = true) := by
  have hpass : (checkRateLimit st ip "register" now).1 = none := by
    rw [checkRateLimit_fresh st ip "register" now hfresh]
  have hreg := register_rate_pass st ip now data e conf hpass
  refine ⟨?_, ?_, ?_⟩
  · have hU : hasUpper p = p.data.any Char.isUpper := rfl
    have hL : hasLower p = p.data.any Char.isLower := rfl
    have hN : hasNumber p = p.data.any Char.isDigit := rfl
    unfold passwordRejected
    rw [hU, hL, hN, hasSpecial_eq_not_alphanum]
    simp [List.any_eq_true, Nat.not_lt, and_assoc]
  · intro hp
    refine ⟨?_, ?_⟩
    · rw [hreg.1]
      simp [registerBody, hp]
    · rw [hreg.2, hp]
      rfl
  · intro hp
    rw [hreg.2, hp]
    rfl

/-- Witness for C4: the strong password from the spec's example is accepted,
and a weak-password registration returns the policy message without reaching
account creation. -/
theorem c4_password_validation_witness :
    passwordRejected "Abc@1234" = false ∧
    (register [] "x" 0 ⟨"n", "e", "abc"⟩ none false).error = some passwordPolicyMsg ∧
    (register [] "x" 0 ⟨"n", "e", "abc"⟩ none false).signUpCalled = false := by
  have h := c4_password_validation "Abc@1234" [] "x" 0 ⟨"n", "e", "abc"⟩ none false rfl
  exact ⟨h.1.mpr (by decide), (h.2.1 (by decide)).1, (h.2.1 (by decide)).2⟩

/-! ### Claim C8 -/

/-- C8 (amended): `register` runs the rate-limit check BEFORE password
validation.  The rate-limit store a call leaves behind is always the one the
check produced (every call, weak password included, touches the table); a
weak-password call returns the policy error, with no account created, only
when the rate check passed, and a denying rate check makes the result the
rate-limit error instead. -/
theorem c8_rate_check_precedes_validation (st : RateStore) (ip : String)
    (now : Int) (data : RegisterData) (e : Option String) (conf : Bool) :
    (register st ip now data e conf).store = (checkRateLimit st ip "register" now).2 ∧
    ((checkRateLimit st ip "register" now).1 = none →
      passwordRejected data.password = true →
      (register st ip now data e conf).error = some passwordPolicyMsg ∧
      (register st ip now data e conf).signUpCalled = false) ∧
    (∀ msg, (checkRateLimit st ip "register" now).1 = some msg →
      (register st ip now data e conf).error = some msg) := by
  refine ⟨register_store st ip now data e conf, ?_, ?_⟩
  · intro hnone hp
    have hreg := register_rate_pass st ip now data e conf hnone
    refine ⟨?_, ?_⟩
    · rw [hreg.1]
      simp [registerBody, hp]
    · rw [hreg.2, hp]
      rfl
  · intro msg hmsg
    exact (register_rate_deny st ip now data e conf msg hmsg).1

/-- Witness for C8's amended statement at a concrete weak-password call. -/
theorem c8_rate_check_precedes_validation_witness :
    (register [] "y" 0 ⟨"n", "e", "weak"⟩ none false).store =
      (checkRateLimit [] "y" "register" 0).2 ∧
    (register [] "y" 0 ⟨"n", "e", "weak"⟩ none false).error = some passwordPolicyMsg := by
  have h := c8_rate_check_precedes_validation [] "y" 0 ⟨"n", "e", "weak"⟩ none false
  exact ⟨h.1, (h.2.1 (by decide) (by decide)).1⟩

/-- Counterexample for C8 as stated: a weak-password `register` call whose
(random) key is already at count 5 within the window returns the rate-limit
denial, not the password-policy error — so validation does not precede the
rate check; and even from an empty table a weak-password call changes the
table (its key's entry is written), so the entry is not left unchanged. -/
theorem c8_counterexample :
    (register [("register:abc", ⟨5, 0⟩)] "abc" 1 ⟨"n", "e", "weak"⟩ none false).error
      = some rateLimitMsg ∧
    rateLimitMsg ≠ passwordPolicyMsg ∧
    (register [] "abc" 1 ⟨"n", "e", "weak"⟩ none false).store ≠ [] := by
  decide

/-! ### List helper lemmas for the conditioned mutations -/

theorem length_filter_split {α : Type} (p : α → Bool) (l : List α) :
    (l.filter p).length + (l.filter fun a => !p a).length = l.length := by
  induction l with
  | nil => rfl
  | cons a t ih =>
    by_cases hp : p a = true
    · simp [List.filter_cons, hp]
      omega
    · have hp' : p a = false := by simpa using hp
      simp [List.filter_cons, hp']
      omega

theorem filter_owner_unique (pid uid : String) (r0 : PollRow)
    (hid : r0.id = pid) (huid : r0.user_id = uid) :
    ∀ db : List PollRow, (db.Pairwise fun r s => r.id ≠ s.id) → r0 ∈ db →
      (db.filter fun r => r.id == pid && r.user_id == uid).length = 1 := by
  intro db
  induction db with
  | nil =>
    intro _ h
    cases h
  | cons r rest ih =>
    intro hids hr0
    rw [List.pairwise_cons] at hids
    rcases List.mem_cons.mp hr0 with h | h
    · subst h
      have hmatch : (r0.id == pid && r0.user_id == uid) = true := by
        simp [hid, huid]
      have hrest : rest.filter (fun r => r.id == pid && r.user_id == uid) = [] := by
        rw [List.filter_eq_nil_iff]
        intro s hs
        simp only [Bool.and_eq_true, beq_iff_eq]
        rintro ⟨hsid, _⟩
        exact hids.1 s hs (hid.trans hsid.symm)
      simp [List.filter_cons, hmatch, hrest]
    · have hne : (r.id == pid && r.user_id == uid) = false := by
        have : r.id ≠ pid := fun hh => hids.1 r0 h (hh.trans hid.symm)
        simp [this]
      simp only [List.filter_cons, hne, if_neg]
      simpa using ih hids.2 h

/-! ### Claim C1 -/

/-- C1 (amended): `updatePoll`/`deletePoll` invoked by an authenticated
non-owner never mutate the target row, but they return `error = none` — a
silent no-op indistinguishable from success, not an authorization/not-found
error; invoked by the owner (with valid data for update, ids unique in the
table) they match and mutate exactly one row. -/
theorem c1_ownership_conditioned_mutations (db : List PollRow) (uid pid q : String)
    (opts : List String) (hvalid : ¬ pollInputInvalid q opts) :
    ((∀ r ∈ db, ¬(r.id = pid ∧ r.user_id = uid)) →
      updatePoll db (some uid) pid q opts = (db, none) ∧
      deletePoll db (some uid) pid = (db, none)) ∧
    ((db.Pairwise fun r s => r.id ≠ s.id) → ∀ r0 ∈ db, r0.id = pid → r0.user_id = uid →
      (db.filter fun r => r.id == pid && r.user_id == uid).length = 1 ∧
      (updatePoll db (some uid) pid q opts).2 = none ∧
      (updatePoll db (some uid) pid q opts).1.length = db.length ∧
      (deletePoll db (some uid) pid).2 = none ∧
      (deletePoll db (some uid) pid).1.length + 1 = db.length) := by
  constructor
  · intro hno
    constructor
    · have hmap : (db.map fun r =>
          if r.id = pid ∧ r.user_id = uid then
            { r with question := q, options := filterOptions opts }
          else r) = db := by
        have h1 := List.map_congr_left (l := db)
          (f := fun r =>
            if r.id = pid ∧ r.user_id = uid then
              { r with question := q, options := filterOptions opts }
            else r)
          (g := id) (fun r hr => by simp [hno r hr])
        rw [h1, List.map_id]
      simp [updatePoll, hvalid, hmap]
    · have hfil : (db.filter fun r => !(r.id == pid && r.user_id == uid)) = db := by
        rw [List.filter_eq_self]
        intro r hr
        have h := hno r hr
        by_cases h1 : r.id = pid
        · by_cases h2 : r.user_id = uid
          · exact absurd ⟨h1, h2⟩ h
          · simp [h2]
        · simp [h1]
      show (db.filter fun r => !(r.id == pid && r.user_id == uid),
        (none : Option String)) = (db, none)
      rw [hfil]
  · intro hids r0 hr0 hid huid
    have hone := filter_owner_unique pid uid r0 hid huid db hids hr0
    refine ⟨hone, ?_, ?_, rfl, ?_⟩
    · simp [updatePoll, hvalid]
    · simp [updatePoll, hvalid]
    · have hsplit := length_filter_split
        (fun r => r.id == pid && r.user_id == uid) db
      rw [hone] at hsplit
      show (db.filter fun r => !(r.id == pid && r.user_id == uid)).length + 1 = db.length
      omega

/-- Witness for C1's amended statement: one concrete table, the non-owner's
no-op update/delete and the owner's exactly-one-row update/delete. -/
theorem c1_ownership_conditioned_mutations_witness :
    (updatePoll [⟨"p1", "alice", "q", ["a", "b"], 0⟩] (some "bob") "p1" "q2" ["x", "y"]
      = ([⟨"p1", "alice", "q", ["a", "b"], 0⟩], none) ∧
     deletePoll [⟨"p1", "alice", "q", ["a", "b"], 0⟩] (some "bob") "p1"
      = ([⟨"p1", "alice", "q", ["a", "b"], 0⟩], none)) ∧
    (([⟨"p1", "alice", "q", ["a", "b"], 0⟩] :
        List PollRow).filter (fun r => r.id == "p1" && r.user_id == "alice")).length = 1 ∧
    (updatePoll [⟨"p1", "alice", "q", ["a", "b"], 0⟩] (some "alice") "p1" "q2" ["x", "y"]).2
      = none ∧
    (updatePoll [⟨"p1", "alice", "q", ["a", "b"], 0⟩] (some "alice") "p1" "q2" ["x", "y"]).1.length
      = ([⟨"p1", "alice", "q", ["a", "b"], 0⟩] : List PollRow).length ∧
    (deletePoll [⟨"p1", "alice", "q", ["a", "b"], 0⟩] (some "alice") "p1").2 = none ∧
    (deletePoll [⟨"p1", "alice", "q", ["a", "b"], 0⟩] (some "alice") "p1").1.length + 1
      = ([⟨"p1", "alice", "q", ["a", "b"], 0⟩] : List PollRow).length := by
  have hb := c1_ownership_conditioned_mutations
    [⟨"p1", "alice", "q", ["a", "b"], 0⟩] "bob" "p1" "q2" ["x", "y"] (by decide)
  have ha := c1_ownership_conditioned_mutations
    [⟨"p1", "alice", "q", ["a", "b"], 0⟩] "alice" "p1" "q2" ["x", "y"] (by decide)
  refine ⟨hb.1 ?_, ha.2 ?_ ⟨"p1", "alice", "q", ["a", "b"], 0⟩ ?_ rfl rfl⟩
  · intro r hr
    simp only [List.mem_singleton] at hr
    subst hr
    decide
  · decide
  · simp

/-- Counterexample for C1 as stated: the non-owner's `updatePoll`/`deletePoll`
return `error = none` (the success signal), not an authorization/not-found
error. -/
theorem c1_counterexample :
    updatePoll [⟨"p1", "alice", "q", ["a", "b"], 0⟩] (some "bob") "p1" "q2" ["x", "y"]
      = ([⟨"p1", "alice", "q", ["a", "b"], 0⟩], none) ∧
    deletePoll [⟨"p1", "alice", "q", ["a", "b"], 0⟩] (some "bob") "p1"
      = ([⟨"p1", "alice", "q", ["a", "b"], 0⟩], none) := by
  decide

/-! ### Claim C2 -/

/-- C2 (amended): `submitVote` performs no bounds check at all — for every
`optionIndex`, in range of the referenced poll's options or not, it inserts
the vote row (with the resolved user id or null) and returns success. -/
theorem c2_submitVote_no_bounds_check (votes : List VoteRow) (auth : Option String)
    (pollId : String) (optionIndex : Int) :
    submitVote votes auth pollId optionIndex =
      (votes ++ [⟨pollId, auth, optionIndex⟩], none) := rfl

/-- Counterexample for C2 as stated: against a poll with 2 options, a vote
with `optionIndex = 5` (out of range) is inserted and the call reports
success — nothing is rejected. -/
theorem c2_counterexample :
    (⟨"p1", "alice", "q", ["a", "b"], 0⟩ : PollRow).options.length = 2 ∧
    ¬((5 : Int) < 2) ∧
    submitVote [] none "p1" 5 = ([⟨"p1", none, 5⟩], none) := by
  decide

/-! ### Claim C6 -/

/-- C6 (amended): `createPoll`/`updatePoll` reject with the validation error
exactly when the question is the empty string or fewer than 2 options remain
after dropping empty-string options (`filter(Boolean)`); no trimming is done,
so whitespace-only questions/options count as valid.  On rejection the table
is untouched. -/
theorem c6_poll_shape_validation (db : List PollRow) (auth : Option String)
    (q : String) (opts : List String) (nid pid : String) (now : Int) :
    ((createPoll db auth q opts nid now).2 = some pollValidationMsg ↔
      pollInputInvalid q opts) ∧
    ((updatePoll db auth pid q opts).2 = some pollValidationMsg ↔
      pollInputInvalid q opts) ∧
    (pollInputInvalid q opts →
      (createPoll db auth q opts nid now).1 = db ∧
      (updatePoll db auth pid q opts).1 = db) ∧
    (pollInputInvalid q opts ↔ (q = "" ∨ (filterOptions opts).length < 2)) := by
  have hmsg1 : createPollLoginMsg ≠ pollValidationMsg := by decide
  have hmsg2 : updatePollLoginMsg ≠ pollValidationMsg := by decide
  by_cases hinv : pollInputInvalid q opts
  · refine ⟨?_, ?_, ?_, Iff.rfl⟩ <;>
      simp [createPoll, updatePoll, hinv]
  · refine ⟨?_, ?_, ?_, Iff.rfl⟩
    · cases auth with
      | none => simp [createPoll, hinv, hmsg1]
      | some uid => simp [createPoll, hinv]
    · cases auth with
      | none => simp [updatePoll, hinv, hmsg2]
      | some uid => simp [updatePoll, hinv]
    · intro h
      exact absurd h hinv

/-- Witness for C6 at a concrete invalid input (one non-empty option). -/
theorem c6_poll_shape_validation_witness :
    (createPoll [] (some "u") "Q" ["a", ""] "p1" 0).2 = some pollValidationMsg ∧
    (createPoll [] (some "u") "Q" ["a", ""] "p1" 0).1 = ([] : List PollRow) ∧
    (updatePoll [] (some "u") "p1" "Q" ["a", ""]).1 = ([] : List PollRow) := by
  have h := c6_poll_shape_validation [] (some "u") "Q" ["a", ""] "p1" "p1" 0
  have hinv : pollInputInvalid "Q" ["a", ""] := by decide
  exact ⟨h.1.mpr hinv, (h.2.2.1 hinv).1, (h.2.2.1 hinv).2⟩

/-- Counterexample for C6 as stated: a question consisting of a single space
is blank after trimming, so the claim demands rejection, but the code accepts
it and inserts the row (`!question` is false for a non-empty string; nothing
is trimmed). -/
theorem c6_counterexample :
    createPoll [] (some "u") " " ["a", "b"] "p2" 5
      = ([⟨"p2", "u", " ", ["a", "b"], 5⟩], none) := by
  decide

/-! ### Claim C7 -/

/-- C7 (amended): with no resolved authenticated actor, none of `createPoll`,
`getUserPolls`, `getPollById`, `updatePoll`, `deletePoll` performs a database
mutation and each returns an error — the unauthenticated error whenever the
shape validation (which `createPoll`/`updatePoll` run first) passes, the
validation error otherwise — while `submitVote` alone succeeds, inserting the
vote row with a null voter user id. -/
theorem c7_unauthenticated_gating (db : List PollRow) (votes : List VoteRow)
    (q : String) (opts : List String) (nid pid : String) (now : Int) (idx : Int) :
    ((createPoll db none q opts nid now).1 = db ∧
      (createPoll db none q opts nid now).2 ≠ none) ∧
    (¬ pollInputInvalid q opts →
      (createPoll db none q opts nid now).2 = some createPollLoginMsg) ∧
    getUserPolls db none = ([], some notAuthenticatedMsg) ∧
    getPollById db none pid = (none, some notAuthenticatedMsg) ∧
    ((updatePoll db none pid q opts).1 = db ∧
      (updatePoll db none pid q opts).2 ≠ none) ∧
    (¬ pollInputInvalid q opts →
      (updatePoll db none pid q opts).2 = some updatePollLoginMsg) ∧
    deletePoll db none pid = (db, some notAuthenticatedMsg) ∧
    submitVote votes none pid idx = (votes ++ [⟨pid, none, idx⟩], none) := by
  by_cases hinv : pollInputInvalid q opts
  · refine ⟨⟨?_, ?_⟩, ?_, rfl, rfl, ⟨?_, ?_⟩, ?_, rfl, rfl⟩ <;>
      simp [createPoll, updatePoll, hinv]
  · refine ⟨⟨?_, ?_⟩, ?_, rfl, rfl, ⟨?_, ?_⟩, ?_, rfl, rfl⟩ <;>
      simp [createPoll, updatePoll, hinv]

/-- Witness for C7 at concrete shape-valid input. -/
theorem c7_unauthenticated_gating_witness :
    (createPoll [] none "Q" ["a", "b"] "p1" 0).1 = ([] : List PollRow) ∧
    (createPoll [] none "Q" ["a", "b"] "p1" 0).2 = some createPollLoginMsg ∧
    getUserPolls [] none = ([], some notAuthenticatedMsg) ∧
    getPollById [] none "p1" = (none, some notAuthenticatedMsg) ∧
    (updatePoll [] none "p1" "Q" ["a", "b"]).2 = some updatePollLoginMsg ∧
    deletePoll [] none "p1" = (([] : List PollRow), some notAuthenticatedMsg) ∧
    submitVote [] none "p1" 0 = ([⟨"p1", none, 0⟩], none) := by
  have h := c7_unauthenticated_gating [] [] "Q" ["a", "b"] "p1" "p1" 0 0
  exact ⟨h.1.1, h.2.1 (by decide), h.2.2.1, h.2.2.2.1,
    h.2.2.2.2.2.1 (by decide), h.2.2.2.2.2.2.1, h.2.2.2.2.2.2.2⟩

/-- Counterexample for C7 as stated: with no actor AND an invalid shape,
`createPoll` returns the validation error, not an "unauthenticated" error
(the shape check runs before the auth check). -/
theorem c7_counterexample :
    (createPoll [] none "" ["a"] "p1" 0).2 = some pollValidationMsg ∧
    pollValidationMsg ≠ createPollLoginMsg ∧
    pollValidationMsg ≠ notAuthenticatedMsg := by
  decide

/-! ### Claim C9 -/

/-- C9: the displayed percentage is `Math.round(votes / totalVotes * 100)`
(round half up) whenever the total is positive and `0` for every option when
the total is `0` (no division-by-zero fault); vote counts `[3,1,0]` display as
`[75,25,0]` and all-zero counts as `[0,0,0]`. -/
theorem c9_vote_percentages :
    (∀ (v : Nat) (opts : List Nat), totalVotes opts = 0 → getPercentage v opts = 0) ∧
    (∀ (v : Nat) (opts : List Nat), 0 < totalVotes opts →
      getPercentage v opts = round ((v : ℚ) / (totalVotes opts : ℚ) * 100)) ∧
    [3, 1, 0].map (fun v => getPercentage v [3, 1, 0]) = [75, 25, 0] ∧
    [0, 0, 0].map (fun v => getPercentage v [0, 0, 0]) = [0, 0, 0] := by
  refine ⟨?_, ?_, ?_, ?_⟩
  · intro v opts h
    simp [getPercentage, h]
  · intro v opts h
    rw [getPercentage, if_neg (by omega), jsRound, round_eq]
  · norm_num [getPercentage, totalVotes, jsRound]
  · norm_num [getPercentage, totalVotes, jsRound]

/-- Witness for C9 at concrete vote counts. -/
theorem c9_vote_percentages_witness :
    getPercentage 5 [0, 0] = 0 ∧
    getPercentage 1 [3, 1, 0] = round ((1 : ℚ) / ((totalVotes [3, 1, 0] : Nat) : ℚ) * 100) :=
  ⟨c9_vote_percentages.1 5 [0, 0] rfl,
   c9_vote_percentages.2.1 1 [3, 1, 0] (by decide)⟩

/-! ### Claim C10 -/

theorem three_stamp_filter_low (t1 t2 t3 now : Int)
    (h : ¬ (([t1, t2, t3].filter fun ts =>
        now - ts < POLL_RATE_LIMIT_WINDOW_MS).length ≥ POLL_RATE_LIMIT_MAX)) :
    POLL_RATE_LIMIT_WINDOW_MS ≤ now - min t1 (min t2 t3) := by
  simp only [POLL_RATE_LIMIT_WINDOW_MS, POLL_RATE_LIMIT_MAX] at h ⊢
  by_cases h1 : now - t1 < 60 * 1000 <;> by_cases h2 : now - t2 < 60 * 1000 <;>
    by_cases h3 : now - t3 < 60 * 1000 <;>
      simp only [List.filter, h1, h2, h3, decide_eq_true_eq,
        decide_eq_false_iff_not, if_true, if_false] at h <;> simp_all <;> omega

theorem three_stamp_filter_high (t1 t2 t3 now : Int)
    (h : POLL_RATE_LIMIT_WINDOW_MS ≤ now - min t1 (min t2 t3)) :
    ¬ (([t1, t2, t3].filter fun ts =>
        now - ts < POLL_RATE_LIMIT_WINDOW_MS).length ≥ POLL_RATE_LIMIT_MAX) := by
  simp only [POLL_RATE_LIMIT_WINDOW_MS, POLL_RATE_LIMIT_MAX] at h ⊢
  by_cases h1 : now - t1 < 60 * 1000 <;> by_cases h2 : now - t2 < 60 * 1000 <;>
    by_cases h3 : now - t3 < 60 * 1000 <;>
      simp only [List.filter, h1, h2, h3, decide_eq_true_eq,
        decide_eq_false_iff_not, if_true, if_false] <;> simp_all <;> omega

/-- C10 (amended): a `createPoll` call denied by the per-user 3-per-60s
limiter records no timestamp and inserts no row — database and rate-limit map
come back exactly unchanged, so denied attempts never extend the lockout —
and with exactly three recorded timestamps a new call succeeds exactly when
the oldest of them is AT LEAST 60 seconds old (`now − oldest ≥ 60000`; the
filter keeps a stamp only while `now − ts < 60000`). -/
theorem c10_create_poll_rate_limit (db : List PollRow) (rl : PollRateMap)
    (uid : String) (now : Int) (q : String) (opts : List String) (nid : String)
    (hvalid : ¬ pollInputInvalid q opts) :
    (((((alookup rl uid).getD []).filter fun ts =>
          now - ts < POLL_RATE_LIMIT_WINDOW_MS).length ≥ POLL_RATE_LIMIT_MAX) →
      createPollRL db rl (some uid) now q opts nid = (db, rl, some pollRateLimitMsg)) ∧
    (∀ t1 t2 t3 : Int, alookup rl uid = some [t1, t2, t3] →
      ((createPollRL db rl (some uid) now q opts nid).2.2 = none ↔
        POLL_RATE_LIMIT_WINDOW_MS ≤ now - min t1 (min t2 t3))) := by
  constructor
  · intro hden
    simp [createPollRL, hvalid, hden]
  · intro t1 t2 t3 hlook
    by_cases hden : (([t1, t2, t3].filter fun ts =>
        now - ts < POLL_RATE_LIMIT_WINDOW_MS).length ≥ POLL_RATE_LIMIT_MAX)
    · have hres : (createPollRL db rl (some uid) now q opts nid).2.2
          = some pollRateLimitMsg := by
        simp [createPollRL, hvalid, hlook, hden]
      rw [hres]
      constructor
      · intro h0
        exact Option.noConfusion h0
      · intro hge
        exact absurd hden (three_stamp_filter_high t1 t2 t3 now hge)
    · have hres : (createPollRL db rl (some uid) now q opts nid).2.2 = none := by
        simp [createPollRL, hvalid, hlook, hden]
      rw [hres]
      simp only [true_iff]
      exact three_stamp_filter_low t1 t2 t3 now hden

/-- Witness for C10: with three timestamps at 0 recorded, a call at 1ms is
denied leaving map and database untouched, and a call at exactly 60000ms
succeeds (the boundary of the iff). -/
theorem c10_create_poll_rate_limit_witness :
    createPollRL [] [("u", [0, 0, 0])] (some "u") 1 "Q" ["a", "b"] "p9"
      = ([], [("u", [0, 0, 0])], some pollRateLimitMsg) ∧
    ((createPollRL [] [("u", [0, 0, 0])] (some "u") 60000 "Q" ["a", "b"] "p9").2.2 = none
      ↔ POLL_RATE_LIMIT_WINDOW_MS ≤ (60000 : Int) - min 0 (min 0 0)) := by
  have h1 := c10_create_poll_rate_limit [] [("u", [0, 0, 0])] "u" 1 "Q" ["a", "b"] "p9"
    (by decide)
  have h2 := c10_create_poll_rate_limit [] [("u", [0, 0, 0])] "u" 60000 "Q" ["a", "b"] "p9"
    (by decide)
  exact ⟨h1.1 (by decide), h2.2 0 0 0 (by decide)⟩

/-- Counterexample for C10 as stated: with three creations recorded at time 0,
a call at exactly 60000ms — when the oldest stamp is exactly, not more than,
60 seconds old — already succeeds and inserts the row (the filter keeps a
stamp only while `now - ts < 60000`, strictly). -/
theorem c10_counterexample :
    (createPollRL [] [("u", [0, 0, 0])] (some "u") 60000 "Q" ["a", "b"] "p9").2.2
      = none ∧
    (createPollRL [] [("u", [0, 0, 0])] (some "u") 60000 "Q" ["a", "b"] "p9").1
      = [⟨"p9", "u", "Q", ["a", "b"], 60000⟩] ∧
    ¬ ((60000 : Int) - 0 > 60000) := by
  decide

end AlxPolly
